import Mathlib

/-!
Shallow embedding of `src/lgbm/src/dataset.rs` from `lgbm-rs`: the owning
wrapper around a native LightGBM dataset handle.  Native (`LGBM_Dataset*`)
calls are opaque FFI calls; each wrapper operation is embedded as a pure
function that receives the native call's out-parameters/status as explicit
inputs and additionally returns the list of native calls it issued, so that
"the native call was (not) invoked, with these arguments" is provable.
Collaborator items that live in this crate but outside `dataset.rs`
(`Error`, `to_result`, `Mat`, the `lgbm_sys` tag constants) are modelled
from the spec, as marked on each such definition.
-/

namespace Lgbm

/-- The four scalar element kinds implementing the `Data` trait in the source:
`f32`, `f64`, `i32`, `i64`. -/
inductive DType : Type
  | f32
  | f64
  | i32
  | i64
deriving DecidableEq, Repr

/-- Modelled from the spec: the numeric element-type tags come from the
`lgbm_sys` bindings (`C_API_DTYPE_FLOAT32/FLOAT64/INT32/INT64`), which are not
part of `dataset.rs`; the spec fixes them as "four fixed numeric constants"
that "must match exactly" the native ABI.  This is the `DATA_TYPE` associated
constant of the `Data` trait, as a `c_int` value. -/
def DType.DATA_TYPE : DType → Int
  | .f32 => 0
  | .f64 => 1
  | .i32 => 2
  | .i64 => 3

/-- The `FeatureData` capability of the source: a strict subset of `Data`,
implemented exactly for `f32` and `f64`. -/
def FeatureData : DType → Bool
  | .f32 => true
  | .f64 => true
  | .i32 => false
  | .i64 => false

/-- Modelled from the spec: the structured error type of the crate root (not in
`dataset.rs`), following the spec's error taxonomy: native-reported failure
(message from the native last-error text), fixed local message
(`Error::from_message`), range/overflow failure (integer narrowing), and
encoding failure (path/parameter strings). -/
inductive Error : Type
  | native (msg : String)
  | message (msg : String)
  | rangeError
  | encoding
deriving DecidableEq, Repr

/-- The `Result<T>` alias of the crate. -/
abbrev Result (α : Type) : Type := Except Error α

/-- Modelled from the spec: `to_result`, the error translation boundary of the
crate root: a zero native status is success, a nonzero status is converted to a
failure carrying the native layer's last-error text. -/
def toResult (status : Int) (lastError : String) : Result Unit :=
  if status = 0 then .ok () else .error (.native lastError)

/-- ASCII bytes of a string literal, for the `&'static [u8]` wire names. -/
def strBytes (s : String) : List Nat :=
  s.data.map Char.toNat

/-- The `Field<T>` descriptor of the source: a wire name (`&'static [u8]`)
with a phantom binding to one element type. -/
structure Field (T : DType) : Type where
  name : List Nat
deriving DecidableEq, Repr

/-- `Field::<T>::new`: the source `assert!(matches!(name.last(), Some(&0)))`
panics at construction when the wire name does not end in a null byte; the
panic is modelled as `none`. -/
def Field.new (T : DType) (name : List Nat) : Option (Field T) :=
  if name.getLast? = some 0 then some ⟨name⟩ else none

/-- `Field::<f32>::LABEL = Field::new(b"label\0")`. -/
def Field.LABEL : Field DType.f32 :=
  (Field.new DType.f32 (strBytes "label" ++ [0])).get (by decide)

/-- `Field::<f32>::WEIGHT = Field::new(b"weight\0")`. -/
def Field.WEIGHT : Field DType.f32 :=
  (Field.new DType.f32 (strBytes "weight" ++ [0])).get (by decide)

/-- `Field::<f64>::INIT_SCORE = Field::new(b"init_score\0")`. -/
def Field.INIT_SCORE : Field DType.f64 :=
  (Field.new DType.f64 (strBytes "init_score" ++ [0])).get (by decide)

/-- `Field::<i32>::GROUP = Field::new(b"group\0")`. -/
def Field.GROUP : Field DType.i32 :=
  (Field.new DType.i32 (strBytes "group" ++ [0])).get (by decide)

/-- The raw `DatasetHandle` (an opaque native pointer value); `0` is the null
sentinel (`null_mut()`). -/
abbrev DatasetHandle : Type := Int

/-- `pub struct Dataset(pub(crate) DatasetHandle)`: the owning wrapper. -/
structure Dataset : Type where
  handle : DatasetHandle
deriving DecidableEq, Repr

/-- `fn to_dataset_handle(dataset: Option<&Dataset>) -> DatasetHandle`. -/
def to_dataset_handle (dataset : Option Dataset) : DatasetHandle :=
  match dataset with
  | some d => d.handle
  | none => 0

/-- One issued native call, with the arguments the wrapper passed (pointer
arguments other than the dataset handle are elided: they are addresses of
caller-local buffers/out-slots). -/
inductive NativeCall : Type
  | createFromFile (filename : List Nat) (params : List Nat) (reference : DatasetHandle)
  | createFromMat (dataType : Int) (nrow ncol : Int) (isRowMajor : Bool)
      (params : List Nat) (reference : DatasetHandle)
  | setField (h : DatasetHandle) (fieldName : List Nat) (numElement : Int) (dataType : Int)
  | getField (h : DatasetHandle) (fieldName : List Nat)
  | getNumFeature (h : DatasetHandle)
  | getNumData (h : DatasetHandle)
  | dumpText (h : DatasetHandle) (filename : List Nat)
  | free (h : DatasetHandle)
deriving DecidableEq, Repr

/-- Out-parameters of a native dataset-creation call: status, last-error text,
and the handle written through the out-pointer. -/
structure CreateOut : Type where
  status : Int
  lastError : String
  outHandle : DatasetHandle
deriving DecidableEq, Repr

/-- Out-parameters of `LGBM_DatasetGetField`: status, last-error text, the
reported element count (`out_len: c_int`), the native-owned buffer behind
`out_ptr` (element values are opaque bit patterns, represented as `Int`), and
the reported element-type tag (`out_type: c_int`). -/
structure GetFieldOut : Type where
  status : Int
  lastError : String
  out_len : Int
  outBuf : List Int
  out_type : Int
deriving DecidableEq, Repr

/-- `c_int::MAX` (the native integer is a 32-bit `c_int`). -/
def cIntMax : Nat := 2147483647

/-- The `usize → c_int` narrowing `try_into()` used for row/column counts and
buffer lengths, composed with the crate's `From<TryFromIntError> for Error`:
succeeds exactly when the value fits in `c_int`. -/
def usizeToCInt (n : Nat) : Result Int :=
  if n ≤ cIntMax then .ok (n : Int) else .error .rangeError

/-- The Rust cast `v as usize` applied to a `c_int` on a 64-bit target:
sign-extend to 64 bits and reinterpret as unsigned. -/
def intAsUsize (v : Int) : Nat :=
  (v % (2 ^ 64 : Int)).toNat

/-- Modelled from the spec: the external matrix collaborator `Mat<T, L>` (not
in `dataset.rs`): a 2D buffer of a feature-eligible element type with row and
column counts and a row-major/column-major layout flag.  The buffer contents
are passed to the native layer as an opaque pointer and are not otherwise
inspected by `dataset.rs`, so they are elided here. -/
structure Mat : Type where
  dtype : DType
  nrow : Nat
  ncol : Nat
  rowMajor : Bool
deriving DecidableEq, Repr

/-- `Dataset::from_file`.  `pathEnc` and `paramsEnc` are the results of the
collaborators `path_to_cstring(filename)` and `parameters.to_cstring()`
(modelled from the spec: both can fail with an encoding failure); `n` is the
native `LGBM_DatasetCreateFromFile` response.  Returns the wrapper result and
the list of native calls issued. -/
def Dataset.from_file (pathEnc : Result (List Nat)) (paramsEnc : Result (List Nat))
    (reference : Option Dataset) (n : CreateOut) :
    Result Dataset × List NativeCall :=
  match pathEnc with
  | .error e => (.error e, [])
  | .ok pathB =>
    match paramsEnc with
    | .error e => (.error e, [])
    | .ok paramsB =>
      match toResult n.status n.lastError with
      | .error e => (.error e, [.createFromFile pathB paramsB (to_dataset_handle reference)])
      | .ok _ => (.ok ⟨n.outHandle⟩, [.createFromFile pathB paramsB (to_dataset_handle reference)])

/-- `Dataset::from_mat`.  The `FeatureData` bound of the source is reflected
as the explicit capability argument `hT`, so the function cannot be applied
at an ineligible element type; argument evaluation order follows the source:
`mat.nrow().try_into()?`, then `mat.ncol().try_into()?`, then
`parameters.to_cstring()?`, and only then the native call. -/
def Dataset.from_mat (mat : Mat) (_hT : FeatureData mat.dtype = true)
    (paramsEnc : Result (List Nat)) (reference : Option Dataset) (n : CreateOut) :
    Result Dataset × List NativeCall :=
  match usizeToCInt mat.nrow with
  | .error e => (.error e, [])
  | .ok nrowC =>
    match usizeToCInt mat.ncol with
    | .error e => (.error e, [])
    | .ok ncolC =>
      match paramsEnc with
      | .error e => (.error e, [])
      | .ok paramsB =>
        match toResult n.status n.lastError with
        | .error e =>
          (.error e, [.createFromMat mat.dtype.DATA_TYPE nrowC ncolC mat.rowMajor
            paramsB (to_dataset_handle reference)])
        | .ok _ =>
          (.ok ⟨n.outHandle⟩, [.createFromMat mat.dtype.DATA_TYPE nrowC ncolC mat.rowMajor
            paramsB (to_dataset_handle reference)])

/-- Modelled from the spec: the native layer's per-dataset field store, keyed
by wire name; each entry holds the element-type tag and the stored buffer.
Spec 4.4: on set "the dataset's internal field is fully replaced"; get
"receives a length, an untyped pointer, and an element-type tag". -/
structure NativeDataset : Type where
  fields : List (List Nat × Int × List Int)
deriving DecidableEq, Repr

/-- Modelled from the spec: the `LGBM_DatasetSetField` state transition.  The
injected `status` is the native call's return status; on success the named
field is fully replaced with the given buffer and tag, on failure the store is
unchanged.  The caller passes `numElement` equal to the buffer's length, so
the stored buffer is the passed list itself. -/
def NativeDataset.setFieldCall (nst : NativeDataset) (fieldName : List Nat)
    (buf : List Int) (dataType : Int) (status : Int) : NativeDataset :=
  if status = 0 then
    ⟨(fieldName, dataType, buf) :: nst.fields.filter (fun e => !(decide (e.1 = fieldName)))⟩
  else nst

/-- Modelled from the spec: the `LGBM_DatasetGetField` response from the field
store: a stored field is returned with its length, buffer, and tag and a zero
status; an absent field is a native-reported failure. -/
def NativeDataset.getFieldCall (nst : NativeDataset) (fieldName : List Nat) : GetFieldOut :=
  match nst.fields.find? (fun e => decide (e.1 = fieldName)) with
  | some e => { status := 0, lastError := "", out_len := (e.2.2.length : Int),
                outBuf := e.2.2, out_type := e.2.1 }
  | none => { status := -1, lastError := "field not found", out_len := 0,
              outBuf := [], out_type := 0 }

/-- `Dataset::set_field`.  Narrows `data.len()` to `c_int` (`try_into()?`),
then issues the native set call against the field store (`status`/`lastError`
being the native response) and translates the status.  `&mut self` is
reflected by returning the wrapper alongside the result: the body never
assigns the handle, so the returned wrapper is `self` on every path. -/
def Dataset.set_field (self : Dataset) {T : DType} (field : Field T) (data : List Int)
    (nst : NativeDataset) (status : Int) (lastError : String) :
    Result Unit × Dataset × NativeDataset × List NativeCall :=
  match usizeToCInt data.length with
  | .error e => (.error e, self, nst, [])
  | .ok lenC =>
    (toResult status lastError, self,
      nst.setFieldCall field.name data T.DATA_TYPE status,
      [.setField self.handle field.name lenC T.DATA_TYPE])

/-- `Dataset::get_field`.  `nout` is the native `LGBM_DatasetGetField`
response.  After a successful native call the reported tag is compared with
the descriptor's `T::DATA_TYPE`; on mismatch the dedicated fixed-message error
is returned, otherwise the result is `slice::from_raw_parts(out_ptr as *const
T, out_len as usize)`: the buffer behind the pointer, `out_len as usize`
elements long. -/
def Dataset.get_field (self : Dataset) {T : DType} (field : Field T) (nout : GetFieldOut) :
    Result (List Int) × List NativeCall :=
  match toResult nout.status nout.lastError with
  | .error e => (.error e, [.getField self.handle field.name])
  | .ok _ =>
    if nout.out_type ≠ T.DATA_TYPE then
      (.error (.message "element type mismatch"), [.getField self.handle field.name])
    else
      (.ok (nout.outBuf.take (intAsUsize nout.out_len)), [.getField self.handle field.name])

/-- `Dataset::get_num_feature`.  `num_feature` is the `c_int` count the native
call wrote; on success it is returned `as usize`. -/
def Dataset.get_num_feature (self : Dataset) (status : Int) (lastError : String)
    (num_feature : Int) : Result Nat × List NativeCall :=
  match toResult status lastError with
  | .error e => (.error e, [.getNumFeature self.handle])
  | .ok _ => (.ok (intAsUsize num_feature), [.getNumFeature self.handle])

/-- `Dataset::get_num_data`.  `num_data` is the `c_int` count the native call
wrote; on success it is returned `as usize`. -/
def Dataset.get_num_data (self : Dataset) (status : Int) (lastError : String)
    (num_data : Int) : Result Nat × List NativeCall :=
  match toResult status lastError with
  | .error e => (.error e, [.getNumData self.handle])
  | .ok _ => (.ok (intAsUsize num_data), [.getNumData self.handle])

/-- `Dataset::dump_text`.  `pathEnc` is the `path_to_cstring(path)?` result
(modelled from the spec); the native status is translated through
`to_result`. -/
def Dataset.dump_text (self : Dataset) (pathEnc : Result (List Nat))
    (status : Int) (lastError : String) : Result Unit × List NativeCall :=
  match pathEnc with
  | .error e => (.error e, [])
  | .ok pathB => (toResult status lastError, [.dumpText self.handle pathB])

/-- `impl Drop for Dataset`: one `LGBM_DatasetFree` call on the handle, the
status checked through `to_result(..).unwrap()`.  The `unwrap()` panic on a
failing release is modelled as `none`; `some ()` is a normal return. -/
def Dataset.drop (self : Dataset) (status : Int) (lastError : String) :
    Option Unit × List NativeCall :=
  match toResult status lastError with
  | .ok _ => (some (), [.free self.handle])
  | .error _ => (none, [.free self.handle])

/-! Helper lemmas shared by the claim theorems. -/

theorem usizeToCInt_ok (n : Nat) (h : n ≤ cIntMax) : usizeToCInt n = .ok (n : Int) := by
  unfold usizeToCInt
  rw [if_pos h]

theorem usizeToCInt_err (n : Nat) (h : cIntMax < n) : usizeToCInt n = .error .rangeError := by
  unfold usizeToCInt
  rw [if_neg (by omega)]

theorem intAsUsize_coe (n : Nat) (h : n < 2 ^ 64) : intAsUsize (n : Int) = n := by
  unfold intAsUsize
  rw [Int.emod_eq_of_lt (by positivity) (by exact_mod_cast h)]
  exact Int.toNat_natCast n

theorem intAsUsize_of_nonneg (v : Int) (h0 : 0 ≤ v) (h1 : v < 2 ^ 64) :
    intAsUsize v = v.toNat := by
  unfold intAsUsize
  rw [Int.emod_eq_of_lt h0 h1]

theorem toResult_zero (lastError : String) : toResult 0 lastError = .ok () := by
  unfold toResult
  rw [if_pos rfl]

theorem toResult_nonzero (status : Int) (lastError : String) (h : status ≠ 0) :
    toResult status lastError = .error (.native lastError) := by
  unfold toResult
  rw [if_neg h]

/-- Claim C6: the four canonical field descriptors carry exactly the wire
names "label" (bound to `f32`), "weight" (`f32`), "init_score" (`f64`) and
"group" (`i32`), each name is non-empty and null-terminated, and the
null-termination check is performed by the constructor `Field::new` (it
succeeds exactly when the name ends in a null byte), not at call time. -/
theorem field_registry_canonical :
    Field.LABEL = (⟨strBytes "label" ++ [0]⟩ : Field DType.f32) ∧
    Field.WEIGHT = (⟨strBytes "weight" ++ [0]⟩ : Field DType.f32) ∧
    Field.INIT_SCORE = (⟨strBytes "init_score" ++ [0]⟩ : Field DType.f64) ∧
    Field.GROUP = (⟨strBytes "group" ++ [0]⟩ : Field DType.i32) ∧
    (Field.LABEL.name ≠ [] ∧ Field.LABEL.name.getLast? = some 0) ∧
    (Field.WEIGHT.name ≠ [] ∧ Field.WEIGHT.name.getLast? = some 0) ∧
    (Field.INIT_SCORE.name ≠ [] ∧ Field.INIT_SCORE.name.getLast? = some 0) ∧
    (Field.GROUP.name ≠ [] ∧ Field.GROUP.name.getLast? = some 0) ∧
    (∀ (T : DType) (name : List Nat),
      (Field.new T name).isSome = true ↔ name.getLast? = some 0) := by
  refine ⟨by decide, by decide, by decide, by decide, by decide, by decide, by decide,
    by decide, ?_⟩
  intro T name
  unfold Field.new
  by_cases h : name.getLast? = some 0
  · simp [h]
  · simp [h]

/-- Witness for C6: the constructor check applied at a concrete wire name. -/
theorem field_registry_canonical_witness :
    (Field.new DType.f32 (strBytes "label" ++ [0])).isSome = true :=
  (field_registry_canonical.2.2.2.2.2.2.2.2 DType.f32 (strBytes "label" ++ [0])).mpr
    (by decide)

/-- Claim C8: among the four scalar kinds, exactly `f32` and `f64` carry the
`FeatureData` capability; `Dataset.from_mat` takes this capability as a proof
argument (the embedding of the source's `T: FeatureData` bound), so it cannot
be applied at any other element type, with no runtime check. -/
theorem featureData_exactly_floats (T : DType) :
    FeatureData T = true ↔ (T = DType.f32 ∨ T = DType.f64) := by
  cases T <;> simp [FeatureData]

/-- Witness for C8: the capability held at `f32`, via the theorem. -/
theorem featureData_exactly_floats_witness : FeatureData DType.f32 = true :=
  (featureData_exactly_floats DType.f32).mpr (Or.inl rfl)

/-- Claim C5: `to_dataset_handle` is a pure function mapping `None` to the
null sentinel and `Some d` to `d`'s exact raw handle value, and both
`from_file` and `from_mat` pass its value as the reference argument of the
native creation call. -/
theorem to_dataset_handle_spec :
    to_dataset_handle none = 0 ∧
    (∀ d : Dataset, to_dataset_handle (some d) = d.handle) ∧
    (∀ (pathB paramsB : List Nat) (reference : Option Dataset) (n : CreateOut),
      (Dataset.from_file (.ok pathB) (.ok paramsB) reference n).2 =
        [NativeCall.createFromFile pathB paramsB (to_dataset_handle reference)]) ∧
    (∀ (mat : Mat) (hT : FeatureData mat.dtype = true) (paramsB : List Nat)
        (reference : Option Dataset) (n : CreateOut),
      mat.nrow ≤ cIntMax → mat.ncol ≤ cIntMax →
      (Dataset.from_mat mat hT (.ok paramsB) reference n).2 =
        [NativeCall.createFromMat mat.dtype.DATA_TYPE (mat.nrow : Int) (mat.ncol : Int)
          mat.rowMajor paramsB (to_dataset_handle reference)]) := by
  refine ⟨rfl, fun d => rfl, ?_, ?_⟩
  · intro pathB paramsB reference n
    unfold Dataset.from_file
    cases htr : toResult n.status n.lastError <;> simp
  · intro mat hT paramsB reference n hr hc
    unfold Dataset.from_mat
    rw [usizeToCInt_ok mat.nrow hr, usizeToCInt_ok mat.ncol hc]
    cases htr : toResult n.status n.lastError <;> simp

/-- Witness for C5: the null sentinel and an exact handle value, and the
reference argument passed to a concrete matrix-creation call. -/
theorem to_dataset_handle_spec_witness :
    (Dataset.from_mat ⟨DType.f64, 4, 2, true⟩ rfl (.ok []) (some ⟨7⟩) ⟨0, "", 9⟩).2 =
      [NativeCall.createFromMat 1 4 2 true [] 7] :=
  to_dataset_handle_spec.2.2.2 ⟨DType.f64, 4, 2, true⟩ rfl [] (some ⟨7⟩) ⟨0, "", 9⟩
    (by decide) (by decide)

/-- Claim C10: `set_field` takes the wrapper mutably but leaves the stored
handle value unchanged whether it succeeds or fails (the other operations
take the wrapper by shared reference and are embedded without returning any
wrapper at all). -/
theorem set_field_preserves_handle (self : Dataset) (T : DType) (f : Field T)
    (data : List Int) (nst : NativeDataset) (status : Int) (lastError : String) :
    (Dataset.set_field self f data nst status lastError).2.1 = self ∧
    ((Dataset.set_field self f data nst status lastError).2.1).handle = self.handle := by
  unfold Dataset.set_field
  cases h : usizeToCInt data.length <;> simp

/-- Claim C4: dropping a dataset wrapper issues exactly one native release
call, on its own handle; a zero release status returns normally while a
nonzero status escalates to a panic (`none`), never a recoverable result. -/
theorem drop_release_once (self : Dataset) (status : Int) (lastError : String) :
    (Dataset.drop self status lastError).2 = [NativeCall.free self.handle] ∧
    (Dataset.drop self status lastError).2.length = 1 ∧
    (status = 0 → (Dataset.drop self status lastError).1 = some ()) ∧
    (status ≠ 0 → (Dataset.drop self status lastError).1 = none) := by
  unfold Dataset.drop toResult
  by_cases h : status = 0 <;> simp [h]

/-- Witness for C4: a concrete failing release panics, after exactly one
release call on the handle. -/
theorem drop_release_once_witness :
    (Dataset.drop ⟨5⟩ (-1) "release failed").1 = none ∧
    (Dataset.drop ⟨5⟩ (-1) "release failed").2 = [NativeCall.free 5] :=
  ⟨(drop_release_once ⟨5⟩ (-1) "release failed").2.2.2 (by decide),
    (drop_release_once ⟨5⟩ (-1) "release failed").1⟩

/-- Claim C1: after a successful native field-get call, a reported element
type tag differing from the descriptor's bound `DATA_TYPE` makes `get_field`
return the dedicated "element type mismatch" error; the result is the same
for every possible buffer behind the returned pointer (the pointer is not
read), the native call was issued first, and no view is ever returned. -/
theorem get_field_type_mismatch (self : Dataset) (T : DType) (f : Field T)
    (nout : GetFieldOut) (hok : nout.status = 0) (hne : nout.out_type ≠ T.DATA_TYPE) :
    (Dataset.get_field self f nout).1 = .error (.message "element type mismatch") ∧
    (∀ buf : List Int,
      (Dataset.get_field self f
        { status := nout.status, lastError := nout.lastError, out_len := nout.out_len,
          outBuf := buf, out_type := nout.out_type }).1 =
        .error (.message "element type mismatch")) ∧
    (Dataset.get_field self f nout).2 = [NativeCall.getField self.handle f.name] ∧
    (∀ view : List Int, (Dataset.get_field self f nout).1 ≠ .ok view) := by
  have htr : toResult nout.status nout.lastError = .ok () := by
    rw [hok]
    exact toResult_zero nout.lastError
  refine ⟨?_, ?_, ?_, ?_⟩ <;> simp [Dataset.get_field, htr, hne]

/-- Witness for C1: a descriptor bound to `f32` meeting a buffer the native
layer reports as `f64` fails with the dedicated mismatch error. -/
theorem get_field_type_mismatch_witness :
    (Dataset.get_field ⟨1⟩ Field.LABEL ⟨0, "", 4, [0, 1, 0, 1], 1⟩).1 =
      .error (.message "element type mismatch") :=
  (get_field_type_mismatch ⟨1⟩ DType.f32 Field.LABEL ⟨0, "", 4, [0, 1, 0, 1], 1⟩
    rfl (by decide)).1

/-- Claim C9: `get_num_feature` and `get_num_data` issue the corresponding
native query and, on native success, return the reported native-width signed
count converted to an unsigned size equal to that count. -/
theorem get_num_queries (self : Dataset) (stF stD : Int) (eF eD : String) (cF cD : Int)
    (hF : stF = 0) (hD : stD = 0) (hF0 : 0 ≤ cF) (hD0 : 0 ≤ cD)
    (hFw : cF < 2 ^ 31) (hDw : cD < 2 ^ 31) :
    (Dataset.get_num_feature self stF eF cF).1 = .ok cF.toNat ∧
    ((cF.toNat : Int) = cF) ∧
    (Dataset.get_num_feature self stF eF cF).2 = [NativeCall.getNumFeature self.handle] ∧
    (Dataset.get_num_data self stD eD cD).1 = .ok cD.toNat ∧
    ((cD.toNat : Int) = cD) ∧
    (Dataset.get_num_data self stD eD cD).2 = [NativeCall.getNumData self.handle] := by
  have hFu : intAsUsize cF = cF.toNat :=
    intAsUsize_of_nonneg cF hF0 (lt_trans hFw (by norm_num))
  have hDu : intAsUsize cD = cD.toNat :=
    intAsUsize_of_nonneg cD hD0 (lt_trans hDw (by norm_num))
  subst hF
  subst hD
  have htrF : toResult 0 eF = .ok () := toResult_zero eF
  have htrD : toResult 0 eD = .ok () := toResult_zero eD
  refine ⟨?_, ?_, ?_, ?_, ?_, ?_⟩ <;>
    simp [Dataset.get_num_feature, Dataset.get_num_data, htrF, htrD, hFu, hDu,
      Int.toNat_of_nonneg, hF0, hD0]

/-- Witness for C9: the spec's example scenario counts, 2 features and 4
rows, reported by a successful native query. -/
theorem get_num_queries_witness :
    (Dataset.get_num_feature ⟨1⟩ 0 "" 2).1 = .ok 2 ∧
    (Dataset.get_num_data ⟨1⟩ 0 "" 4).1 = .ok 4 :=
  ⟨(get_num_queries ⟨1⟩ 0 0 "" "" 2 4 rfl rfl (by decide) (by decide) (by decide)
      (by decide)).1,
    (get_num_queries ⟨1⟩ 0 0 "" "" 2 4 rfl rfl (by decide) (by decide) (by decide)
      (by decide)).2.2.2.1⟩

/-- Claim C3: a row or column count exceeding the native `c_int` range makes
`from_mat` fail with the range error without issuing any native call; counts
in range are narrowed and passed to the native creation call unchanged. -/
theorem from_mat_range (mat : Mat) (hT : FeatureData mat.dtype = true)
    (paramsEnc : Result (List Nat)) (reference : Option Dataset) (n : CreateOut) :
    (cIntMax < mat.nrow ∨ cIntMax < mat.ncol →
      (Dataset.from_mat mat hT paramsEnc reference n).1 = .error .rangeError ∧
      (Dataset.from_mat mat hT paramsEnc reference n).2 = []) ∧
    (mat.nrow ≤ cIntMax → mat.ncol ≤ cIntMax → ∀ paramsB, paramsEnc = .ok paramsB →
      (Dataset.from_mat mat hT paramsEnc reference n).2 =
        [NativeCall.createFromMat mat.dtype.DATA_TYPE (mat.nrow : Int) (mat.ncol : Int)
          mat.rowMajor paramsB (to_dataset_handle reference)]) := by
  constructor
  · intro hover
    unfold Dataset.from_mat
    by_cases hr : mat.nrow ≤ cIntMax
    · have hc : cIntMax < mat.ncol := by
        rcases hover with h | h
        · omega
        · exact h
      rw [usizeToCInt_ok mat.nrow hr, usizeToCInt_err mat.ncol hc]
      exact ⟨rfl, rfl⟩
    · rw [usizeToCInt_err mat.nrow (by omega)]
      exact ⟨rfl, rfl⟩
  · intro hr hc paramsB hp
    unfold Dataset.from_mat
    rw [usizeToCInt_ok mat.nrow hr, usizeToCInt_ok mat.ncol hc, hp]
    cases htr : toResult n.status n.lastError <;> simp

/-- Witness for C3: a synthetic matrix with `2^31` rows fails with the range
error and issues no native call. -/
theorem from_mat_range_witness :
    (Dataset.from_mat ⟨DType.f32, 2147483648, 2, true⟩ rfl (.ok []) none ⟨0, "", 9⟩).1 =
      .error .rangeError ∧
    (Dataset.from_mat ⟨DType.f32, 2147483648, 2, true⟩ rfl (.ok []) none ⟨0, "", 9⟩).2 =
      [] :=
  (from_mat_range ⟨DType.f32, 2147483648, 2, true⟩ rfl (.ok []) none ⟨0, "", 9⟩).1
    (Or.inl (by decide))

/-- Claim C7: construction is atomic: an encoding failure propagates as that
error, a nonzero native status propagates as the native-reported error, and a
wrapper is only ever produced from a successful native call, holding exactly
the handle the native call wrote — which is non-null whenever the native
layer upholds its contract of writing a non-null handle on success. -/
theorem construction_atomic (pathEnc paramsEnc : Result (List Nat))
    (reference : Option Dataset) (nF : CreateOut) (mat : Mat)
    (hT : FeatureData mat.dtype = true) (nM : CreateOut)
    (hnF : nF.status = 0 → nF.outHandle ≠ 0)
    (hnM : nM.status = 0 → nM.outHandle ≠ 0) :
    (∀ e, pathEnc = .error e →
      (Dataset.from_file pathEnc paramsEnc reference nF).1 = .error e) ∧
    (∀ pathB paramsB, pathEnc = .ok pathB → paramsEnc = .ok paramsB → nF.status ≠ 0 →
      (Dataset.from_file pathEnc paramsEnc reference nF).1 = .error (.native nF.lastError)) ∧
    (∀ d, (Dataset.from_file pathEnc paramsEnc reference nF).1 = .ok d →
      nF.status = 0 ∧ d.handle = nF.outHandle ∧ d.handle ≠ 0) ∧
    (∀ d, (Dataset.from_mat mat hT paramsEnc reference nM).1 = .ok d →
      nM.status = 0 ∧ d.handle = nM.outHandle ∧ d.handle ≠ 0) := by
  refine ⟨?_, ?_, ?_, ?_⟩
  · intro e he
    unfold Dataset.from_file
    rw [he]
  · intro pathB paramsB hpth hprm hst
    unfold Dataset.from_file
    rw [hpth, hprm, toResult_nonzero nF.status nF.lastError hst]
  · intro d hd
    by_cases hst : nF.status = 0
    · have hd2 : d = (⟨nF.outHandle⟩ : Dataset) := by
        unfold Dataset.from_file at hd
        rcases pathEnc with e | pathB <;> simp at hd
        rcases paramsEnc with e | paramsB <;> simp at hd
        rw [hst, toResult_zero nF.lastError] at hd
        simp at hd
        exact hd.symm
      refine ⟨hst, ?_, ?_⟩
      · rw [hd2]
      · rw [hd2]
        exact hnF hst
    · exfalso
      unfold Dataset.from_file at hd
      rcases pathEnc with e | pathB <;> simp at hd
      rcases paramsEnc with e | paramsB <;> simp at hd
      rw [toResult_nonzero nF.status nF.lastError hst] at hd
      simp at hd
  · intro d hd
    by_cases hst : nM.status = 0
    · have hd2 : d = (⟨nM.outHandle⟩ : Dataset) := by
        unfold Dataset.from_mat at hd
        rcases hrow : usizeToCInt mat.nrow with e | nrowC <;> rw [hrow] at hd <;> simp at hd
        rcases hcol : usizeToCInt mat.ncol with e | ncolC <;> rw [hcol] at hd <;> simp at hd
        rcases paramsEnc with e | paramsB <;> simp at hd
        rw [hst, toResult_zero nM.lastError] at hd
        simp at hd
        exact hd.symm
      refine ⟨hst, ?_, ?_⟩
      · rw [hd2]
      · rw [hd2]
        exact hnM hst
    · exfalso
      unfold Dataset.from_mat at hd
      rcases hrow : usizeToCInt mat.nrow with e | nrowC <;> rw [hrow] at hd <;> simp at hd
      rcases hcol : usizeToCInt mat.ncol with e | ncolC <;> rw [hcol] at hd <;> simp at hd
      rcases paramsEnc with e | paramsB <;> simp at hd
      rw [toResult_nonzero nM.status nM.lastError hst] at hd
      simp at hd

/-- Witness for C7: a concrete successful construction yields the wrapper
holding exactly the native-produced (non-null) handle. -/
theorem construction_atomic_witness :
    (0 : Int) = 0 ∧ Dataset.handle ⟨42⟩ = 42 ∧ Dataset.handle ⟨42⟩ ≠ 0 :=
  (construction_atomic (.ok []) (.ok []) none ⟨0, "", 42⟩ ⟨DType.f32, 4, 2, true⟩ rfl
    ⟨0, "", 42⟩ (fun _ => by decide) (fun _ => by decide)).2.2.1 ⟨42⟩ rfl

/-- Claim C2: for any descriptor and any buffer of its bound element type, a
successful `set_field` followed by `get_field` with the same descriptor
against the resulting native field store returns a view whose length and
contents equal exactly the buffer that was set, for every element type. -/
theorem set_get_round_trip (self : Dataset) (T : DType) (f : Field T) (data : List Int)
    (nst : NativeDataset) (status : Int) (lastError : String)
    (hset : (Dataset.set_field self f data nst status lastError).1 = .ok ()) :
    (Dataset.get_field self f
      (((Dataset.set_field self f data nst status lastError).2.2.1).getFieldCall
        f.name)).1 = .ok data := by
  by_cases hlen : data.length ≤ cIntMax
  · have hcv : usizeToCInt data.length = .ok (data.length : Int) :=
      usizeToCInt_ok data.length hlen
    have hst : status = 0 := by
      unfold Dataset.set_field at hset
      rw [hcv] at hset
      simp [toResult] at hset
      exact hset
    subst hst
    have hstore : (Dataset.set_field self f data nst 0 lastError).2.2.1 =
        ⟨(f.name, T.DATA_TYPE, data) ::
          nst.fields.filter (fun e => !(decide (e.1 = f.name)))⟩ := by
      unfold Dataset.set_field
      rw [hcv]
      unfold NativeDataset.setFieldCall
      rw [if_pos rfl]
    rw [hstore]
    have hfind : NativeDataset.getFieldCall
        ⟨(f.name, T.DATA_TYPE, data) ::
          nst.fields.filter (fun e => !(decide (e.1 = f.name)))⟩ f.name =
        { status := 0, lastError := "", out_len := (data.length : Int),
          outBuf := data, out_type := T.DATA_TYPE } := by
      unfold NativeDataset.getFieldCall
      rw [List.find?_cons_of_pos _ (by simp)]
    rw [hfind]
    unfold Dataset.get_field
    rw [toResult_zero ""]
    simp only [ne_eq, not_true_eq_false, if_neg, ite_not, if_pos]
    rw [intAsUsize_coe data.length (by
      have : cIntMax < 2 ^ 64 := by norm_num [cIntMax]
      omega)]
    simp [List.take_length]
  · exfalso
    unfold Dataset.set_field at hset
    rw [usizeToCInt_err data.length (by omega)] at hset
    exact absurd hset (by simp)

/-- Witness for C2: the spec's example scenario — a 4-element label buffer
(the bit patterns of `[0.0, 1.0, 0.0, 1.0]` as opaque values) set on an empty
store and read back with the same descriptor, returned exactly. -/
theorem set_get_round_trip_witness :
    (Dataset.get_field ⟨1⟩ Field.LABEL
      (((Dataset.set_field ⟨1⟩ Field.LABEL [0, 1, 0, 1] ⟨[]⟩ 0 "").2.2.1).getFieldCall
        Field.LABEL.name)).1 = .ok [0, 1, 0, 1] :=
  set_get_round_trip ⟨1⟩ DType.f32 Field.LABEL [0, 1, 0, 1] ⟨[]⟩ 0 "" rfl

end Lgbm
